import Mathlib

/-!
Verification of `src/app.py` (sis-montaj): a Flask + MongoDB work-order
tracker.  Python strings are embedded as `List Char`; the MongoDB
collections as Lean lists; each HTTP handler as a pure function from a
request and a store state to a response and a new state.  Randomness
(job-number draws, stored-filename stamps) and the clock are passed in
explicitly as parameters.
-/

namespace SisMontaj

/-- Whitespace test used by Python's `str.strip` (restricted to the ASCII
whitespace characters that can occur in the fields handled here). -/
def isSpace (c : Char) : Bool :=
  c == ' ' || c == '\t' || c == '\n' || c == '\r'

/-- Model of Python's `str.upper` on a single character: ASCII letters are
upper-cased by `Char.toUpper`; the Turkish lowercase letters appearing in
this application's data are mapped to their Unicode uppercase forms as
CPython does. -/
def upperChar (c : Char) : Char :=
  if c = 'ü' then 'Ü'
  else if c = 'ş' then 'Ş'
  else if c = 'ö' then 'Ö'
  else if c = 'ç' then 'Ç'
  else if c = 'ğ' then 'Ğ'
  else if c = 'ı' then 'I'
  else c.toUpper

/-- Python `str.strip()`: drop whitespace from both ends. -/
def pyStrip (l : List Char) : List Char :=
  ((l.dropWhile isSpace).reverse.dropWhile isSpace).reverse

/-- Python `str.upper()`: character-wise upper-casing. -/
def pyUpper (l : List Char) : List Char :=
  l.map upperChar

/-- `normalize_text` (src/app.py:80-83): `str(value).strip().upper()`;
`None` is mapped to `''` by the caller-side `Option.getD []`. -/
def normalize_text (l : List Char) : List Char :=
  pyUpper (pyStrip l)

/-- `job_no_to_token` (src/app.py:252-254): normalize, then
`str.replace('-', '')`, i.e. remove every dash. -/
def job_no_to_token (job_no : List Char) : List Char :=
  (normalize_text job_no).filter (fun c => c ≠ '-')

/-- `token_to_job_no` (src/app.py:257-267): reject empty or too-short
tokens, normalize, and reinsert a dash after the first two characters. -/
def token_to_job_no (token : List Char) : Option (List Char) :=
  if token = [] then none
  else
    let sanitized := normalize_text token
    if sanitized.length < 3 then none
    else
      let pre := sanitized.take 2
      let rest := sanitized.drop 2
      if pre = [] ∨ rest = [] then none
      else some (pre ++ '-' :: rest)

/- Auxiliary lemmas about `pyStrip` / `pyUpper` / `normalize_text`. -/

theorem pyStrip_sublist (l : List Char) : (pyStrip l).Sublist l := by
  have h1 : (l.dropWhile isSpace).Sublist l := List.dropWhile_sublist isSpace
  have h2 : ((l.dropWhile isSpace).reverse.dropWhile isSpace).Sublist
      (l.dropWhile isSpace).reverse := List.dropWhile_sublist isSpace
  have h3 := h2.reverse
  rw [List.reverse_reverse] at h3
  exact h3.trans h1

theorem map_eq_self_of_forall {f : Char → Char} {l : List Char}
    (h : ∀ c ∈ l, f c = c) : l.map f = l := by
  induction l with
  | nil => rfl
  | cons a t ih =>
    simp only [List.map_cons, h a (by simp), ih fun c hc => h c (by simp [hc])]

theorem forall_of_map_eq_self {f : Char → Char} {l : List Char}
    (h : l.map f = l) : ∀ c ∈ l, f c = c := by
  induction l with
  | nil => simp
  | cons a t ih =>
    simp only [List.map_cons, List.cons.injEq] at h
    intro c hc
    rcases List.mem_cons.1 hc with hc | hc
    · exact hc ▸ h.1
    · exact ih h.2 c hc

theorem normalize_text_fix {l : List Char} (h : normalize_text l = l) :
    pyStrip l = l ∧ ∀ c ∈ l, upperChar c = c := by
  have hsub : (pyStrip l).Sublist l := pyStrip_sublist l
  have hlen : (normalize_text l).length = (pyStrip l).length := by
    simp [normalize_text, pyUpper]
  have hstrip : pyStrip l = l := by
    apply hsub.eq_of_length
    rw [← hlen, h]
  refine ⟨hstrip, ?_⟩
  have hupper : l.map upperChar = l := by
    have := h
    rw [normalize_text, pyUpper, hstrip] at this
    exact this
  exact forall_of_map_eq_self hupper

theorem dropWhile_eq_self_of_pyStrip {l : List Char} (h : pyStrip l = l) :
    l.dropWhile isSpace = l ∧ l.reverse.dropWhile isSpace = l.reverse := by
  have hsub1 : (l.dropWhile isSpace).Sublist l := List.dropWhile_sublist isSpace
  have hsub2 : ((l.dropWhile isSpace).reverse.dropWhile isSpace).Sublist
      (l.dropWhile isSpace).reverse := List.dropWhile_sublist isSpace
  have hlen2 : (pyStrip l).length ≤ (l.dropWhile isSpace).length := by
    have := hsub2.length_le
    simpa [pyStrip] using this
  have hlenl : l.length ≤ (l.dropWhile isSpace).length := by
    calc l.length = (pyStrip l).length := by rw [h]
    _ ≤ (l.dropWhile isSpace).length := hlen2
  have hdrop : l.dropWhile isSpace = l :=
    hsub1.eq_of_length (Nat.le_antisymm hsub1.length_le hlenl)
  refine ⟨hdrop, ?_⟩
  have h2 : ((l.reverse.dropWhile isSpace)).reverse = l := by
    have := h
    rw [pyStrip, hdrop] at this
    exact this
  have := congrArg List.reverse h2
  rwa [List.reverse_reverse] at this

theorem head_not_space_of_dropWhile {c : Char} {t : List Char}
    (h : List.dropWhile isSpace (c :: t) = c :: t) : isSpace c = false := by
  by_cases hc : isSpace c
  · exfalso
    rw [List.dropWhile_cons, if_pos hc] at h
    have hle : t.length < (c :: t).length := by simp
    have := congrArg List.length h
    have hsub : (List.dropWhile isSpace t).Sublist t := List.dropWhile_sublist isSpace
    have := hsub.length_le
    omega
  · simpa using hc

theorem dropWhile_cons_of_not_space {c : Char} {t : List Char}
    (h : isSpace c = false) : List.dropWhile isSpace (c :: t) = c :: t := by
  rw [List.dropWhile_cons, if_neg (by simp [h])]

/-- Claim C1 (as written) fails: the round trip upper-cases a lowercase job
number.  `job_no_to_token "te-1" = "TE1"` and `token_to_job_no "TE1" =
some "TE-1" ≠ some "te-1"`. -/
theorem C1_counterexample :
    token_to_job_no (job_no_to_token ('t' :: 'e' :: '-' :: ['1'])) ≠
      some ('t' :: 'e' :: '-' :: ['1']) := by
  decide

/-- Claim C1 (amended): for a job number made of a two-character prefix, a
single dash, and a non-empty suffix, none containing a dash, that is fixed
by `normalize_text` (already trimmed and upper-case), the token round trip
returns the job number unchanged. -/
theorem C1_token_round_trip (a b : Char) (s : List Char)
    (hs : s ≠ []) (ha : a ≠ '-') (hb : b ≠ '-') (hsd : '-' ∉ s)
    (hn : normalize_text (a :: b :: '-' :: s) = a :: b :: '-' :: s) :
    token_to_job_no (job_no_to_token (a :: b :: '-' :: s)) =
      some (a :: b :: '-' :: s) := by
  obtain ⟨hstrip, hupper⟩ := normalize_text_fix hn
  obtain ⟨hdropF, hdropR⟩ := dropWhile_eq_self_of_pyStrip hstrip
  -- the token is the job number with the dash removed
  have htok : job_no_to_token (a :: b :: '-' :: s) = a :: b :: s := by
    rw [job_no_to_token, hn]
    simp only [List.filter_cons]
    rw [if_pos (by simp [ha]), if_pos (by simp [hb]), if_neg (by simp)]
    congr 1
    congr 1
    exact List.filter_eq_self.mpr fun c hc => by
      simp only [decide_eq_true_eq]
      intro hcd
      exact hsd (hcd ▸ hc)
  rw [htok]
  -- decompose the suffix to reach its last character
  obtain ⟨s₁, z, hz⟩ :
      ∃ (s₁ : List Char) (z : Char), s = s₁.concat z :=
    (List.eq_nil_or_concat s).resolve_left hs
  -- the first character of the job number is not whitespace
  have hhead : isSpace a = false := head_not_space_of_dropWhile hdropF
  -- the last character of the job number is not whitespace
  have hlast : isSpace z = false := by
    have hrev : (a :: b :: '-' :: s).reverse =
        z :: (s₁.reverse ++ ['-', b, a]) := by
      subst hz
      simp [List.concat_eq_append, List.reverse_append]
    have := hdropR
    rw [hrev] at this
    exact head_not_space_of_dropWhile this
  -- the token itself is fixed by normalize_text
  have htokfix : normalize_text (a :: b :: s) = a :: b :: s := by
    have hts : pyStrip (a :: b :: s) = a :: b :: s := by
      rw [pyStrip]
      rw [dropWhile_cons_of_not_space hhead]
      have hrev2 : (a :: b :: s).reverse =
          z :: (s₁.reverse ++ [b, a]) := by
        subst hz
        simp [List.concat_eq_append, List.reverse_append]
      rw [hrev2, dropWhile_cons_of_not_space hlast, ← hrev2,
        List.reverse_reverse]
    rw [normalize_text, hts, pyUpper]
    apply map_eq_self_of_forall
    intro c hc
    rcases List.mem_cons.1 hc with hc | hc
    · exact hc ▸ hupper a (by simp)
    rcases List.mem_cons.1 hc with hc | hc
    · exact hc ▸ hupper b (by simp)
    · exact hupper c (by simp [hc])
  rw [token_to_job_no]
  rw [if_neg (by simp)]
  simp only [htokfix]
  have hlen3 : ¬ (a :: b :: s).length < 3 := by
    cases s with
    | nil => exact absurd rfl hs
    | cons c t => simp
  rw [if_neg hlen3]
  have htake : (a :: b :: s).take 2 = [a, b] := by simp
  have hdrop2 : (a :: b :: s).drop 2 = s := by simp
  simp only [htake, hdrop2]
  rw [if_neg (by simp [hs])]
  simp

/-- Witness for C1 at the concrete job number "TE-1234". -/
theorem C1_token_round_trip_witness :
    token_to_job_no (job_no_to_token ('T' :: 'E' :: '-' :: ['1', '2', '3', '4'])) =
      some ('T' :: 'E' :: '-' :: ['1', '2', '3', '4']) :=
  C1_token_round_trip 'T' 'E' ['1', '2', '3', '4'] (by decide) (by decide)
    (by decide) (by decide) (by decide)

/-! Data model: the two Mongo collections and the two upload directories.
Timestamps are abstract `Nat` ticks supplied by the environment. -/

/-- A Python string. -/
abbrev Str := List Char

/-- The `invoice` sub-document stored by `_store_invoice` (src/app.py:237-241). -/
structure Invoice where
  original_name : Str
  stored_name : Str
  uploaded_at : Nat
deriving DecidableEq

/-- A photo entry produced by `_save_photo` (src/app.py:135-139). -/
structure Photo where
  original_name : Str
  stored_name : Str
  uploaded_at : Nat
deriving DecidableEq

/-- The `montaj_completion` sub-document (src/app.py:546-551). -/
structure Completion where
  mount_type : Str
  note : Str
  photo_count : Nat
  completed_at : Nat
deriving DecidableEq

/-- An order document as built by `_build_order_document`
(src/app.py:292-308).  `created_at_display` is a pure formatting of
`created_at` and is omitted. -/
structure Order where
  job_no : Str
  priority : Str
  name : Str
  model : Str
  phone : Str
  service : Str
  rnu : Str
  address : Str
  note : Str
  created_at : Nat
  invoice : Option Invoice
  photos : List Photo
  montaj_completed : Bool
  montaj_completion : Option Completion
deriving DecidableEq

/-- A technician document (src/app.py:675-681). -/
structure Technician where
  name : Str
  username : Str
  password : Str
  level : Int
  created_at : Nat
deriving DecidableEq

/-- The persistent state: the two collections plus the two flat upload
directories (sets of stored file names, modelled as lists). -/
structure St where
  orders : List Order
  technicians : List Technician
  photoDir : List Str
  invoiceDir : List Str
deriving DecidableEq

/-- `orders_collection.find_one({'job_no': q})`: first matching document. -/
def findOrder (orders : List Order) (q : Str) : Option Order :=
  orders.find? (fun o => o.job_no == q)

/-- `orders_collection.update_one({'job_no': q}, {'$set': ...})`: apply `f`
to the first matching document, leave the rest unchanged. -/
def updateFirst (orders : List Order) (q : Str) (f : Order → Order) :
    List Order :=
  match orders with
  | [] => []
  | o :: rest =>
    if o.job_no = q then f o :: rest else o :: updateFirst rest q f

/-- `orders_collection.delete_one({'job_no': q})`: remove the first
matching document. -/
def deleteFirst (orders : List Order) (q : Str) : List Order :=
  match orders with
  | [] => []
  | o :: rest => if o.job_no = q then rest else o :: deleteFirst rest q

/-- `has_admin_user` (src/app.py:96-100): some technician has level 1. -/
def has_admin_user (st : St) : Bool :=
  st.technicians.any (fun t => t.level == 1)

/-! Job-number generation (src/app.py:64-69).  One loop iteration draws
four random decimal digits (`random.choices(string.digits, k=4)`); the
whole random tape is passed in as a list of draws, and exhausting the
tape models non-termination of the `while True` loop. -/

/-- One draw of `random.choices(string.digits, k=4)`. -/
abbrev Draw := Fin 10 × Fin 10 × Fin 10 × Fin 10

/-- The decimal digit character for a single choice. -/
def digitChar (d : Fin 10) : Char := Char.ofNat (48 + d.val)

/-- The four-character suffix built from one draw. -/
def suffixOf (d : Draw) : Str :=
  [digitChar d.1, digitChar d.2.1, digitChar d.2.2.1, digitChar d.2.2.2]

/-- `generate_job_no` (src/app.py:64-69): draw `TE-xxxx` candidates until
one is absent from the orders collection; `none` when the tape runs out
(the real loop would keep drawing). -/
def generate_job_no (orders : List Order) : List Draw → Option Str
  | [] => none
  | d :: rest =>
    let job_no := 'T' :: 'E' :: '-' :: suffixOf d
    if (findOrder orders job_no).isSome then generate_job_no orders rest
    else some job_no

theorem digitChar_isDigit (d : Fin 10) : (digitChar d).isDigit = true := by
  fin_cases d <;> decide

/-- Claim C2: a returned job number is `TE-` followed by exactly four
decimal digits, and (when the loop terminates) it collides with no
`job_no` present in the orders collection at the final lookup. -/
theorem C2_generate_job_no (orders : List Order) (draws : List Draw)
    (j : Str) (h : generate_job_no orders draws = some j) :
    j.take 3 = ['T', 'E', '-'] ∧ (j.drop 3).length = 4 ∧
      (∀ c ∈ j.drop 3, c.isDigit = true) ∧ ∀ o ∈ orders, o.job_no ≠ j := by
  induction draws with
  | nil => exact absurd h (by simp [generate_job_no])
  | cons d rest ih =>
    rw [generate_job_no] at h
    by_cases hf : (findOrder orders ('T' :: 'E' :: '-' :: suffixOf d)).isSome
    · rw [if_pos hf] at h
      exact ih h
    · rw [if_neg hf] at h
      have hj : j = 'T' :: 'E' :: '-' :: suffixOf d := by
        exact (Option.some.injEq _ _ ▸ h.symm)
      subst hj
      refine ⟨by simp [suffixOf], by simp [suffixOf], ?_, ?_⟩
      · intro c hc
        simp only [suffixOf, List.drop_succ_cons, List.drop_zero,
          List.mem_cons, List.not_mem_nil, or_false] at hc
        rcases hc with hc | hc | hc | hc <;>
          (subst hc; exact digitChar_isDigit _)
      · intro o ho hoe
        apply hf
        rw [findOrder, List.find?_isSome]
        exact ⟨o, ho, by simp [hoe]⟩

/-- Witness for C2: on an empty collection and the single draw 0000 the
generator returns "TE-0000", and the conclusions hold there. -/
theorem C2_generate_job_no_witness :
    (('T' :: 'E' :: '-' :: ['0', '0', '0', '0']) : Str).take 3 = ['T', 'E', '-'] ∧
      ((('T' :: 'E' :: '-' :: ['0', '0', '0', '0']) : Str).drop 3).length = 4 ∧
      (∀ c ∈ (('T' :: 'E' :: '-' :: ['0', '0', '0', '0']) : Str).drop 3,
        c.isDigit = true) ∧
      ∀ o ∈ ([] : List Order), o.job_no ≠ ('T' :: 'E' :: '-' :: ['0', '0', '0', '0']) :=
  C2_generate_job_no [] [((0 : Fin 10), (0 : Fin 10), (0 : Fin 10), (0 : Fin 10))]
    ('T' :: 'E' :: '-' :: ['0', '0', '0', '0']) (by decide)

/-! Requests and responses.  A JSON value for a text field is either
`null` or a string; an absent key and a `null` value behave identically
in `_build_order_document`, so creation payloads use a single `Option`. -/

/-- An HTTP response: status code and message (responses that carry a
document in addition to a message keep only status and message here). -/
structure Resp where
  status : Nat
  message : Str
deriving DecidableEq

/-- `jsonify({'message': 'Oturum açılmadı.'}), 401` (src/app.py:86-87). -/
def unauthorized_json : Resp :=
  ⟨401, "Oturum açılmadı.".toList⟩

/-- An uploaded file (`werkzeug` `FileStorage`): its client-supplied
filename, whether `save` succeeds on disk (no `OSError`), and the
timestamp-plus-random-part string the environment draws when the file is
stored. -/
structure FileStorage where
  filename : Str
  saveOk : Bool
  stamp : Str
deriving DecidableEq

/-- Modelled from the werkzeug library (not part of this repository):
`secure_filename` keeps ASCII alphanumerics, dots, underscores and
dashes (other characters, including path separators, are dropped) and
strips dots and underscores from both ends; it can return the empty
string, e.g. on `".."`. -/
def secure_filename (l : Str) : Str :=
  let keep : Char → Bool := fun c =>
    c.isAlphanum || c == '.' || c == '_' || c == '-'
  let kept := l.filter keep
  let edge : Char → Bool := fun c => c == '.' || c == '_'
  ((kept.dropWhile edge).reverse.dropWhile edge).reverse

/-- The JSON body of an order-creation request (the keys read by
`_build_order_document`); `none` models an absent or `null` key. -/
structure CreatePayload where
  priority : Option Str
  name : Option Str
  model : Option Str
  phone : Option Str
  service : Option Str
  rnu : Option Str
  address : Option Str
  note : Option Str
deriving DecidableEq

/-- `(data.get(field) or '')` for a creation payload field. -/
def orEmpty (v : Option Str) : Str := v.getD []

/-- The required-field names, in the order the source lists them
(src/app.py:271). -/
def required_field_names : List Str :=
  ["priority".toList, "name".toList, "model".toList, "phone".toList,
    "service".toList, "address".toList]

/-- The field values of a creation payload in `required_fields` order. -/
def requiredValues (data : CreatePayload) : List (Option Str) :=
  [data.priority, data.name, data.model, data.phone, data.service,
    data.address]

/-- The names of required fields whose value is missing or blank
(src/app.py:272). -/
def missingFields (data : CreatePayload) : List Str :=
  (List.zip required_field_names (requiredValues data)).filterMap
    (fun fv => if pyStrip (orEmpty fv.2) = [] then some fv.1 else none)

/-- `', '.join` of a list of names prefixed by `'Eksik alanlar: '`
(src/app.py:274). -/
def joinComma : List Str → Str
  | [] => []
  | [x] => x
  | x :: rest => x ++ ',' :: ' ' :: joinComma rest

/-- The fixed priority allow-list (src/app.py:278). -/
def valid_priorities : List Str :=
  ["YÜKSEK".toList, "ORTA".toList, "DÜŞÜK".toList]

/-- `_build_order_document` (src/app.py:270-309) without the job-number
draw: validates the required fields and normalizes every field, given the
already-generated `job_no`.  Raises (returns `.error`) on missing
fields. -/
def build_order_fields (data : CreatePayload) (job_no : Str) (now : Nat) :
    Except Str Order :=
  let missing := missingFields data
  if missing ≠ [] then
    .error ("Eksik alanlar: ".toList ++ joinComma missing)
  else
    let priority_input :=
      pyStrip (match data.priority with
        | none => "DÜŞÜK".toList
        | some v => if v = [] then "DÜŞÜK".toList else v)
    let priority0 := normalize_text priority_input
    let priority :=
      if priority0 ∈ valid_priorities then priority0 else "DÜŞÜK".toList
    .ok
      { job_no := job_no
        priority := priority
        name := normalize_text (orEmpty data.name)
        model := normalize_text (orEmpty data.model)
        phone := normalize_text (orEmpty data.phone)
        service := normalize_text (orEmpty data.service)
        rnu := normalize_text (orEmpty data.rnu)
        address := normalize_text (orEmpty data.address)
        note := pyStrip (orEmpty data.note)
        created_at := now
        invoice := none
        photos := []
        montaj_completed := false
        montaj_completion := none }

/-- `_build_order_document` (src/app.py:270-309): validation first, then
the job-number generation loop; `none` models a non-terminating
generation loop (exhausted random tape). -/
def build_order_document (orders : List Order) (draws : List Draw)
    (data : CreatePayload) (now : Nat) : Option (Except Str Order) :=
  match build_order_fields data [] now with
  | .error msg => some (.error msg)
  | .ok _ =>
    match generate_job_no orders draws with
    | none => none
    | some job_no => some (build_order_fields data job_no now)

/-- `create_order_from_payload` (src/app.py:312-319): build the document
and insert it; the unique index on `job_no` raises `DuplicateKeyError`
when the generated number is already present (unreachable sequentially,
modelled for faithfulness). -/
def create_order_from_payload (orders : List Order) (draws : List Draw)
    (data : CreatePayload) (now : Nat) :
    Option (Except Str (Order × List Order)) :=
  match build_order_document orders draws data now with
  | none => none
  | some (.error msg) => some (.error msg)
  | some (.ok doc) =>
    if (findOrder orders doc.job_no).isSome then
      some (.error "İşemri numarası çakıştı, lütfen tekrar deneyin.".toList)
    else
      some (.ok (doc, orders ++ [doc]))

/-- `str(value).strip()` on an optional value, as in
`(data.get(key) or '').strip()`. -/
def stripValue (v : Option Str) : Str := pyStrip (orEmpty v)

/-- `_normalize_password` (src/app.py:90-93): same body as
`normalize_text`. -/
def normalize_password (l : Str) : Str := pyUpper (pyStrip l)

/-- `unlink` of one stored file name from a flat directory. -/
def removeFile (dir : List Str) (nm : Str) : List Str :=
  dir.filter (fun n => n ≠ nm)

/-- `_store_invoice` (src/app.py:218-249): validate the upload, write the
file, set the order's `invoice` sub-document and return the re-fetched
order.  `fs?` is `None` exactly when the caller passed no file. -/
def store_invoice (st : St) (job_no : Str) (fs? : Option FileStorage)
    (now : Nat) : Except Str (Option Order × St) :=
  match fs? with
  | none => .error "Fatura dosyası seçilmedi.".toList
  | some fs =>
    if fs.filename = [] then .error "Fatura dosyası seçilmedi.".toList
    else
      let filename := secure_filename fs.filename
      if filename = [] then .error "Geçersiz dosya adı.".toList
      else
        let stored := job_no ++ '-' :: (fs.stamp ++ '-' :: filename)
        if fs.saveOk then
          let orders' := updateFirst st.orders job_no (fun o =>
            { o with invoice := some ⟨filename, stored, now⟩ })
          .ok (findOrder orders' job_no,
            { st with orders := orders', invoiceDir := st.invoiceDir ++ [stored] })
        else .error "Fatura kaydedilemedi.".toList

/-- `_save_photo` (src/app.py:126-139): reject an empty secure name,
write the file under `job_no-stamp-filename`, return the photo entry and
the grown directory; a failing `save` raises `OSError`. -/
def save_photo (job_no : Str) (now : Nat) (fs : FileStorage)
    (dir : List Str) : Except Str (Photo × List Str) :=
  let filename := secure_filename fs.filename
  if filename = [] then .error "Geçersiz dosya adı.".toList
  else
    let stored := job_no ++ '-' :: (fs.stamp ++ '-' :: filename)
    if fs.saveOk then .ok (⟨filename, stored, now⟩, dir ++ [stored])
    else .error "Dosya kaydedilemedi.".toList

/-- The photo-saving loop of `complete_order` (src/app.py:526-531):
process files in order, skip falsy filenames, stop at the first failure;
returns the entries saved so far, the directory state, and the error, if
any. -/
def save_photos_loop (job_no : Str) (now : Nat) :
    List FileStorage → List Photo → List Str →
      List Photo × List Str × Option Str
  | [], acc, dir => (acc, dir, none)
  | fs :: rest, acc, dir =>
    if fs.filename ≠ [] then
      match save_photo job_no now fs dir with
      | .ok (p, dir') => save_photos_loop job_no now rest (acc ++ [p]) dir'
      | .error msg => (acc, dir, some msg)
    else save_photos_loop job_no now rest acc dir

/-- The cleanup loop of `complete_order` (src/app.py:532-535): unlink
every photo file saved during the failed request. -/
def cleanup_photos (saved : List Photo) (dir : List Str) : List Str :=
  saved.foldl (fun d p => removeFile d p.stored_name) dir

/-- The fixed mount-type allow-list (src/app.py:521), empty string
included. -/
def valid_mount_types : List Str :=
  ["DUVAR".toList, "SEHPA".toList, "DIGER".toList, []]

/-! The HTTP handlers.  Each takes the store state and a request; an
`Option` result models the (probability-zero) divergence of the
job-number generation loop when the random tape is exhausted. -/

/-- Request for `GET /api/orders`. -/
structure ListReq where
  loggedIn : Bool
deriving DecidableEq

/-- `list_orders` (src/app.py:458-468). -/
def list_orders (st : St) (r : ListReq) : Resp × St :=
  if !r.loggedIn then (unauthorized_json, st) else (⟨200, []⟩, st)

/-- Request for `POST /api/orders`. -/
structure CreateReq where
  loggedIn : Bool
  payload : CreatePayload
  now : Nat
deriving DecidableEq

/-- `create_order` (src/app.py:471-486).  The SMS notification
(`_notify_new_order`) is an external side effect outside the model. -/
def create_order (st : St) (r : CreateReq) (draws : List Draw) :
    Option (Resp × St) :=
  if !r.loggedIn then some (unauthorized_json, st)
  else
    match create_order_from_payload st.orders draws r.payload r.now with
    | none => none
    | some (.error msg) => some (⟨400, msg⟩, st)
    | some (.ok (_, orders')) =>
      some (⟨201, []⟩, { st with orders := orders' })

/-- Request for `POST /api/orders/<job_no>/invoice`; `invoiceFile` is
`none` exactly when `'invoice' not in request.files`. -/
structure UploadInvoiceReq where
  loggedIn : Bool
  job_no : Str
  invoiceFile : Option FileStorage
  now : Nat
deriving DecidableEq

/-- `upload_invoice` (src/app.py:489-508). -/
def upload_invoice (st : St) (r : UploadInvoiceReq) : Resp × St :=
  if !r.loggedIn then (unauthorized_json, st)
  else
    match findOrder st.orders r.job_no with
    | none => (⟨404, "İşemri bulunamadı.".toList⟩, st)
    | some _ =>
      match r.invoiceFile with
      | none => (⟨400, "Fatura dosyası bulunamadı.".toList⟩, st)
      | some fs =>
        match store_invoice st r.job_no (some fs) r.now with
        | .error msg => (⟨400, msg⟩, st)
        | .ok (_, st') => (⟨201, "Fatura başarıyla yüklendi.".toList⟩, st')

/-- Request for `POST /api/orders/<job_no>/complete`. -/
structure CompleteReq where
  loggedIn : Bool
  job_no : Str
  mount_type : Option Str
  note : Option Str
  files : List FileStorage
  now : Nat
deriving DecidableEq

/-- `complete_order` (src/app.py:511-564). -/
def complete_order (st : St) (r : CompleteReq) : Resp × St :=
  if !r.loggedIn then (unauthorized_json, st)
  else
    match findOrder st.orders r.job_no with
    | none => (⟨404, "İşemri bulunamadı.".toList⟩, st)
    | some order =>
      let mount_type := normalize_text (orEmpty r.mount_type)
      if mount_type ∉ valid_mount_types then
        (⟨400, "Geçersiz montaj türü.".toList⟩, st)
      else
        let note := pyStrip (orEmpty r.note)
        match save_photos_loop r.job_no r.now r.files [] st.photoDir with
        | (saved, dir', some msg) =>
          (⟨400, msg⟩, { st with photoDir := cleanup_photos saved dir' })
        | (saved, dir', none) =>
          if saved = [] then
            (⟨400, "Lütfen en az bir fotoğraf yükleyin.".toList⟩,
              { st with photoDir := dir' })
          else
            let existing := order.photos
            let total := existing.length + saved.length
            let orders' := updateFirst st.orders r.job_no (fun o =>
              { o with
                montaj_completed := true
                montaj_completion := some ⟨mount_type, note, total, r.now⟩
                photos := existing ++ saved })
            (⟨200, []⟩, { st with orders := orders', photoDir := dir' })

/-- The JSON body of a PUT update; the outer `Option` is key presence,
the inner one a `null` value. -/
structure UpdatePayload where
  priority : Option (Option Str)
  name : Option (Option Str)
  model : Option (Option Str)
  phone : Option (Option Str)
  service : Option (Option Str)
  rnu : Option (Option Str)
  address : Option (Option Str)
deriving DecidableEq

/-- The `$set` document built by `update_order`; `none` marks an absent
key. -/
structure UpdateDoc where
  priority : Option Str
  name : Option Str
  model : Option Str
  phone : Option Str
  service : Option Str
  rnu : Option Str
  address : Option Str
deriving DecidableEq

/-- The update document of `update_order` (src/app.py:576-589): strip
each present value, validate `priority` against the allow-list with
default fallback, and normalize the six text fields. -/
def build_update_doc (p : UpdatePayload) : UpdateDoc :=
  { priority := p.priority.map (fun v =>
      let pv := normalize_text (stripValue v)
      if pv ∈ valid_priorities then pv else "DÜŞÜK".toList)
    name := p.name.map (fun v => normalize_text (stripValue v))
    model := p.model.map (fun v => normalize_text (stripValue v))
    phone := p.phone.map (fun v => normalize_text (stripValue v))
    service := p.service.map (fun v => normalize_text (stripValue v))
    rnu := p.rnu.map (fun v => normalize_text (stripValue v))
    address := p.address.map (fun v => normalize_text (stripValue v)) }

/-- `if not update_doc` (src/app.py:591): the `$set` document has no
keys. -/
def UpdateDoc.isEmpty (u : UpdateDoc) : Bool :=
  u.priority.isNone && u.name.isNone && u.model.isNone && u.phone.isNone &&
    u.service.isNone && u.rnu.isNone && u.address.isNone

/-- Apply a `$set` document to an order: only present keys change. -/
def applyUpdateDoc (u : UpdateDoc) (o : Order) : Order :=
  { o with
    priority := u.priority.getD o.priority
    name := u.name.getD o.name
    model := u.model.getD o.model
    phone := u.phone.getD o.phone
    service := u.service.getD o.service
    rnu := u.rnu.getD o.rnu
    address := u.address.getD o.address }

/-- Request for `PUT /api/orders/<job_no>`. -/
structure UpdateReq where
  loggedIn : Bool
  job_no : Str
  payload : UpdatePayload
deriving DecidableEq

/-- `update_order` (src/app.py:567-601). -/
def update_order (st : St) (r : UpdateReq) : Resp × St :=
  if !r.loggedIn then (unauthorized_json, st)
  else
    match findOrder st.orders r.job_no with
    | none => (⟨404, "İşemri bulunamadı.".toList⟩, st)
    | some _ =>
      let u := build_update_doc r.payload
      if u.isEmpty then (⟨400, "Güncellenecek alan bulunamadı.".toList⟩, st)
      else
        (⟨200, []⟩,
          { st with orders := updateFirst st.orders r.job_no (applyUpdateDoc u) })

/-- Request for `DELETE /api/orders/<job_no>`. -/
structure DeleteReq where
  loggedIn : Bool
  job_no : Str
deriving DecidableEq

/-- `delete_order` (src/app.py:604-639): unlink the invoice file and the
photo files, then delete the document. -/
def delete_order (st : St) (r : DeleteReq) : Resp × St :=
  if !r.loggedIn then (unauthorized_json, st)
  else
    match findOrder st.orders r.job_no with
    | none => (⟨404, "İşemri bulunamadı.".toList⟩, st)
    | some order =>
      let invoiceDir' :=
        match order.invoice with
        | some inv =>
          if inv.stored_name ≠ [] then removeFile st.invoiceDir inv.stored_name
          else st.invoiceDir
        | none => st.invoiceDir
      let photoDir' := order.photos.foldl (fun d p =>
        if p.stored_name ≠ [] then removeFile d p.stored_name else d)
        st.photoDir
      (⟨200, "Kayıt silindi.".toList⟩,
        { st with orders := deleteFirst st.orders r.job_no,
                  invoiceDir := invoiceDir', photoDir := photoDir' })

/-- Request for `GET /api/orders/<job_no>/photos/download`. -/
structure DownloadReq where
  loggedIn : Bool
  job_no : Str
deriving DecidableEq

/-- `download_photos` (src/app.py:730-756); the ZIP payload itself is an
in-memory buffer outside the model. -/
def download_photos (st : St) (r : DownloadReq) : Resp × St :=
  if !r.loggedIn then (unauthorized_json, st)
  else
    match findOrder st.orders r.job_no with
    | none => (⟨404, "İşemri bulunamadı.".toList⟩, st)
    | some order =>
      let valid := order.photos.filter (fun p => p.stored_name ≠ [])
      if valid = [] then
        (⟨404, "Kaydedilmiş fotoğraf bulunamadı.".toList⟩, st)
      else (⟨200, []⟩, st)

/-- Modelled from Python's `int()` on strings: optional surrounding
whitespace, optional sign, at least one decimal digit; anything else
raises, which the caller turns into `None`. -/
def parseInt (s : Str) : Option Int :=
  let t := pyStrip s
  let core : Str → Option Nat := fun ds =>
    if ds ≠ [] ∧ ds.all Char.isDigit then
      some (ds.foldl (fun acc c => acc * 10 + (c.toNat - 48)) 0)
    else none
  match t with
  | '-' :: ds => (core ds).map (fun n => -(n : Int))
  | '+' :: ds => (core ds).map (fun n => (n : Int))
  | ds => (core ds).map (fun n => (n : Int))

/-- The JSON body of a technician-creation request. -/
structure TechPayload where
  name : Option Str
  username : Option Str
  password : Option Str
  level : Option Str
deriving DecidableEq

/-- Request for `POST /api/technicians`. -/
structure TechReq where
  loggedIn : Bool
  payload : TechPayload
  now : Nat
deriving DecidableEq

/-- `create_technician` (src/app.py:651-693). -/
def create_technician (st : St) (r : TechReq) : Resp × St :=
  if !r.loggedIn then (unauthorized_json, st)
  else
    let d := r.payload
    let missing := (List.zip
        ["name".toList, "username".toList, "password".toList, "level".toList]
        [d.name, d.username, d.password, d.level]).filterMap
      (fun fv => if pyStrip (orEmpty fv.2) = [] then some fv.1 else none)
    if missing ≠ [] then
      (⟨400, "Eksik alanlar: ".toList ++ joinComma missing⟩, st)
    else
      let name := normalize_text (orEmpty d.name)
      let username := normalize_text (orEmpty d.username)
      let password := normalize_password (orEmpty d.password)
      let level := parseInt (orEmpty d.level)
      match level with
      | none => (⟨400, "Seçilen seviye geçersiz.".toList⟩, st)
      | some lv =>
        if lv = 3 ∨ lv = 4 ∨ lv = 5 then
          if (st.technicians.find? (fun t => t.username == username)).isSome then
            (⟨409, "Kullanıcı adı zaten kayıtlı.".toList⟩, st)
          else
            (⟨201, "Teknisyen oluşturuldu.".toList⟩,
              { st with technicians :=
                  st.technicians ++ [⟨name, username, password, lv, r.now⟩] })
        else (⟨400, "Seçilen seviye geçersiz.".toList⟩, st)

/-- The form fields of the dealer panel (`/bayi/orders`). -/
structure BayiForm where
  name : Option Str
  phone : Option Str
  model : Option Str
  service : Option Str
  address : Option Str
  note : Option Str
  invoice : Option FileStorage
deriving DecidableEq

/-- `_create_order_from_bayi` (src/app.py:793-807): fixed priority
`'ORTA'`, service defaulting to `'TV KURULUM'`, and a non-emptiness check
over every payload key except `rnu` in dictionary order (`service` is
never empty after the default, so it cannot be reported). -/
def create_order_from_bayi (form : BayiForm) : Except Str CreatePayload :=
  let name := normalize_text (orEmpty form.name)
  let phone := normalize_text (orEmpty form.phone)
  let model := normalize_text (orEmpty form.model)
  let service0 := normalize_text (orEmpty form.service)
  let service := if service0 = [] then "TV KURULUM".toList else service0
  let address := normalize_text (orEmpty form.address)
  if name = [] then .error "Eksik alan: name".toList
  else if phone = [] then .error "Eksik alan: phone".toList
  else if model = [] then .error "Eksik alan: model".toList
  else if address = [] then .error "Eksik alan: address".toList
  else .ok
    { priority := some "ORTA".toList
      name := some name
      phone := some phone
      model := some model
      service := some service
      address := some address
      rnu := some []
      note := some (pyStrip (orEmpty form.note)) }

/-- Request for `POST /bayi/orders`: form fields only, no session data is
consulted by the handler. -/
structure BayiReq where
  form : BayiForm
  now : Nat
deriving DecidableEq

/-- `bayi_create_order` (src/app.py:815-830): note the absence of any
session check. -/
def bayi_create_order (st : St) (r : BayiReq) (draws : List Draw) :
    Option (Resp × St) :=
  match create_order_from_bayi r.form with
  | .error msg => some (⟨400, msg⟩, st)
  | .ok data =>
    match r.form.invoice with
    | none => some (⟨400, "Fatura dosyası zorunludur.".toList⟩, st)
    | some fs =>
      if fs.filename = [] then
        some (⟨400, "Fatura dosyası zorunludur.".toList⟩, st)
      else
        match create_order_from_payload st.orders draws data r.now with
        | none => none
        | some (.error msg) => some (⟨400, msg⟩, st)
        | some (.ok (doc, orders')) =>
          let st' := { st with orders := orders' }
          match store_invoice st' doc.job_no (some fs) r.now with
          | .error msg => some (⟨400, msg⟩, st')
          | .ok (_, st'') => some (⟨200, []⟩, st'')

/-- `enforce_initial_setup` (src/app.py:103-111) composed with the two
order-creating endpoints: while no admin exists every non-setup request
is redirected (302) before its handler runs. -/
def app_create_order (st : St) (r : CreateReq) (draws : List Draw) :
    Option (Resp × St) :=
  if has_admin_user st then create_order st r draws
  else some (⟨302, []⟩, st)

/-- The dealer endpoint behind `enforce_initial_setup`. -/
def app_bayi_create_order (st : St) (r : BayiReq) (draws : List Draw) :
    Option (Resp × St) :=
  if has_admin_user st then bayi_create_order st r draws
  else some (⟨302, []⟩, st)

/-! Helper lemmas about `findOrder` and `updateFirst`. -/

theorem findOrder_updateFirst (orders : List Order) (q : Str)
    (f : Order → Order) (hf : ∀ o, (f o).job_no = o.job_no) :
    findOrder (updateFirst orders q f) q = (findOrder orders q).map f := by
  induction orders with
  | nil => simp [findOrder, updateFirst]
  | cons o rest ih =>
    by_cases h : o.job_no = q
    · rw [updateFirst, if_pos h]
      rw [findOrder, List.find?_cons_of_pos _ (by simp [hf, h]),
        findOrder, List.find?_cons_of_pos _ (by simp [h])]
      rfl
    · rw [updateFirst, if_neg h]
      rw [findOrder, List.find?_cons_of_neg _ (by simp [h]),
        findOrder, List.find?_cons_of_neg _ (by simp [h])]
      exact ih

theorem mem_updateFirst {orders : List Order} {q : Str} {f : Order → Order}
    {o : Order} (ho : findOrder orders q = some o) :
    ∀ p ∈ updateFirst orders q f, p ∈ orders ∨ p = f o := by
  induction orders with
  | nil => simp [updateFirst]
  | cons a rest ih =>
    by_cases h : a.job_no = q
    · have ha : o = a := by
        rw [findOrder, List.find?_cons_of_pos _ (by simp [h])] at ho
        exact (Option.some.injEq _ _ ▸ ho.symm)
      subst ha
      rw [updateFirst, if_pos h]
      intro p hp
      rcases List.mem_cons.1 hp with hp | hp
      · exact Or.inr hp
      · exact Or.inl (List.mem_cons_of_mem _ hp)
    · rw [findOrder, List.find?_cons_of_neg _ (by simp [h])] at ho
      rw [updateFirst, if_neg h]
      intro p hp
      rcases List.mem_cons.1 hp with hp | hp
      · exact Or.inl (hp ▸ List.mem_cons_self _ _)
      · rcases ih ho p hp with hm | hm
        · exact Or.inl (List.mem_cons_of_mem _ hm)
        · exact Or.inr hm

/-- Claim C5: a successful completion call appends the new batch to the
existing photo list, sets the completion flag, overwrites the completion
record with the new mount type, note and time, and records a photo count
equal to the photo list's length after the append; no hypothesis
restricts the previous completion state, so re-completing is allowed. -/
theorem C5_complete_order (st : St) (r : CompleteReq) (o : Order)
    (saved : List Photo) (dir' : List Str)
    (hlog : r.loggedIn = true)
    (hfind : findOrder st.orders r.job_no = some o)
    (hmt : normalize_text (orEmpty r.mount_type) ∈ valid_mount_types)
    (hloop : save_photos_loop r.job_no r.now r.files [] st.photoDir =
      (saved, dir', none))
    (hne : saved ≠ []) :
    (complete_order st r).1 = ⟨200, []⟩ ∧
      (findOrder (complete_order st r).2.orders r.job_no).map Order.photos =
        some (o.photos ++ saved) ∧
      (findOrder (complete_order st r).2.orders r.job_no).map
        Order.montaj_completed = some true ∧
      (findOrder (complete_order st r).2.orders r.job_no).map
          Order.montaj_completion =
        some (some ⟨normalize_text (orEmpty r.mount_type),
          pyStrip (orEmpty r.note), (o.photos ++ saved).length, r.now⟩) := by
  have hres : complete_order st r =
      (⟨200, []⟩,
        { st with
            orders := updateFirst st.orders r.job_no (fun o2 =>
              { o2 with
                montaj_completed := true
                montaj_completion := some ⟨normalize_text (orEmpty r.mount_type),
                  pyStrip (orEmpty r.note),
                  o.photos.length + saved.length, r.now⟩
                photos := o.photos ++ saved })
            photoDir := dir' }) := by
    simp only [complete_order, hlog, Bool.not_true, Bool.false_eq_true,
      if_false, hfind, if_neg (not_not_intro hmt), hloop, if_neg hne]
  rw [hres]
  refine ⟨rfl, ?_⟩
  have hupd := findOrder_updateFirst st.orders r.job_no
    (fun o2 =>
      { o2 with
        montaj_completed := true
        montaj_completion := some ⟨normalize_text (orEmpty r.mount_type),
          pyStrip (orEmpty r.note),
          o.photos.length + saved.length, r.now⟩
        photos := o.photos ++ saved })
    (fun _ => rfl)
  rw [hfind] at hupd
  rw [hupd]
  exact ⟨rfl, rfl, by simp [List.length_append]⟩

/-- Claim C6: a successful PUT update leaves the job number, note,
creation timestamp, invoice record, photo list, completion flag and
completion record of the order unchanged, and every document in the
collection afterwards is either an old document or the cited order with
only the seven allowed fields rewritten. -/
theorem C6_update_order_frame (st : St) (r : UpdateReq) (o : Order)
    (hlog : r.loggedIn = true)
    (hfind : findOrder st.orders r.job_no = some o)
    (hne : (build_update_doc r.payload).isEmpty = false) :
    (update_order st r).1 = ⟨200, []⟩ ∧
      (findOrder (update_order st r).2.orders r.job_no).map Order.job_no =
        some o.job_no ∧
      (findOrder (update_order st r).2.orders r.job_no).map Order.note =
        some o.note ∧
      (findOrder (update_order st r).2.orders r.job_no).map Order.created_at =
        some o.created_at ∧
      (findOrder (update_order st r).2.orders r.job_no).map Order.invoice =
        some o.invoice ∧
      (findOrder (update_order st r).2.orders r.job_no).map Order.photos =
        some o.photos ∧
      (findOrder (update_order st r).2.orders r.job_no).map
        Order.montaj_completed = some o.montaj_completed ∧
      (findOrder (update_order st r).2.orders r.job_no).map
        Order.montaj_completion = some o.montaj_completion ∧
      ((update_order st r).2.orders.all (fun p =>
        st.orders.contains p ||
          p == applyUpdateDoc (build_update_doc r.payload) o)) = true := by
  have hres : update_order st r =
      (⟨200, []⟩,
        { st with orders := updateFirst st.orders r.job_no (applyUpdateDoc (build_update_doc r.payload)) }) := by
    simp only [update_order, hlog, Bool.not_true, Bool.false_eq_true,
      if_false, hfind, if_neg (by simp [hne] : ¬ (build_update_doc r.payload).isEmpty = true)]
  rw [hres]
  have hupd := findOrder_updateFirst st.orders r.job_no
    (applyUpdateDoc (build_update_doc r.payload)) (fun _ => rfl)
  rw [hfind] at hupd
  refine ⟨rfl, ?_⟩
  rw [hupd]
  refine ⟨rfl, rfl, rfl, rfl, rfl, rfl, rfl, ?_⟩
  rw [List.all_eq_true]
  intro p hp
  rcases mem_updateFirst hfind p hp with hm | hm
  · exact Bool.or_eq_true_iff.2 (Or.inl (List.elem_iff.2 hm))
  · exact Bool.or_eq_true_iff.2 (Or.inr (beq_iff_eq.2 hm))

/-! Lemmas about the photo-saving loop. -/

theorem save_photo_ok {job_no : Str} {now : Nat} {fs : FileStorage}
    {dir : List Str} {p : Photo} {d2 : List Str}
    (h : save_photo job_no now fs dir = .ok (p, d2)) :
    d2 = dir ++ [p.stored_name] := by
  rw [save_photo] at h
  by_cases h1 : secure_filename fs.filename = []
  · rw [if_pos h1] at h
    exact absurd h (by simp)
  · rw [if_neg h1] at h
    by_cases h2 : fs.saveOk
    · rw [if_pos h2] at h
      have := (Except.ok.injEq _ _ ▸ h.symm)
      obtain ⟨hp, hd⟩ := Prod.mk.injEq .. ▸ this
      subst hd hp
      rfl
    · rw [if_neg h2] at h
      exact absurd h (by simp)

theorem save_photos_loop_dir (job_no : Str) (now : Nat)
    (files : List FileStorage) (acc : List Photo) (dir : List Str) :
    ∃ nw : List Photo,
      (save_photos_loop job_no now files acc dir).1 = acc ++ nw ∧
      (save_photos_loop job_no now files acc dir).2.1 =
        dir ++ nw.map Photo.stored_name := by
  induction files generalizing acc dir with
  | nil => exact ⟨[], by simp [save_photos_loop]⟩
  | cons fs rest ih =>
    rw [save_photos_loop]
    by_cases hf : fs.filename ≠ []
    · rw [if_pos hf]
      rcases hsave : save_photo job_no now fs dir with msg | pd
      · exact ⟨[], by simp⟩
      · obtain ⟨p, d2⟩ := pd
        have hd2 : d2 = dir ++ [p.stored_name] := save_photo_ok hsave
        obtain ⟨nw, h1, h2⟩ := ih (acc ++ [p]) d2
        refine ⟨p :: nw, ?_, ?_⟩
        · simpa using h1
        · rw [h2, hd2]
          simp
    · rw [if_neg hf]
      exact ih acc dir

theorem save_photos_loop_fails {job_no : Str} {now : Nat}
    {files : List FileStorage} (acc : List Photo) (dir : List Str)
    (h : ∃ fs ∈ files, fs.filename ≠ [] ∧
      (secure_filename fs.filename = [] ∨ fs.saveOk = false)) :
    ∃ saved dir' msg,
      save_photos_loop job_no now files acc dir = (saved, dir', some msg) := by
  induction files generalizing acc dir with
  | nil => simp at h
  | cons fs rest ih =>
    obtain ⟨w, hw, hwf, hwbad⟩ := h
    rw [save_photos_loop]
    by_cases hf : fs.filename ≠ []
    · rw [if_pos hf]
      rcases hsave : save_photo job_no now fs dir with msg | pd
      · exact ⟨acc, dir, msg, rfl⟩
      · obtain ⟨p, d2⟩ := pd
        have hwrest : w ∈ rest := by
          rcases List.mem_cons.1 hw with hww | hww
          · exfalso
            subst hww
            simp only [save_photo] at hsave
            by_cases h1 : secure_filename w.filename = []
            · rw [if_pos h1] at hsave
              exact absurd hsave (by simp)
            · have hb : w.saveOk = false := by
                rcases hwbad with hb | hb
                · exact absurd hb h1
                · exact hb
              rw [if_neg h1, if_neg (by simp [hb])] at hsave
              exact absurd hsave (by simp)
          · exact hww
        exact ih (acc ++ [p]) d2 ⟨w, hwrest, hwf, hwbad⟩
    · rw [if_neg hf]
      have hwrest : w ∈ rest := by
        rcases List.mem_cons.1 hw with hww | hww
        · exact absurd (hww ▸ hwf) (by simp at hf; simp [hf])
        · exact hww
      exact ih acc dir ⟨w, hwrest, hwf, hwbad⟩

theorem save_photos_loop_skip (job_no : Str) (now : Nat)
    (files : List FileStorage) (acc : List Photo) (dir : List Str)
    (h : ∀ fs ∈ files, fs.filename = []) :
    save_photos_loop job_no now files acc dir = (acc, dir, none) := by
  induction files with
  | nil => rfl
  | cons fs rest ih =>
    rw [save_photos_loop, if_neg (by simp [h fs (by simp)])]
    exact ih fun g hg => h g (List.mem_cons_of_mem _ hg)

theorem mem_cleanup_photos {saved : List Photo} {dir : List Str} {n : Str}
    (h : n ∈ cleanup_photos saved dir) :
    n ∈ dir ∧ ∀ p ∈ saved, n ≠ p.stored_name := by
  induction saved generalizing dir with
  | nil => exact ⟨h, by simp⟩
  | cons p rest ih =>
    rw [cleanup_photos, List.foldl_cons] at h
    obtain ⟨h1, h2⟩ := ih h
    have h3 := List.mem_filter.1 h1
    refine ⟨h3.1, ?_⟩
    intro q hq
    rcases List.mem_cons.1 hq with hq | hq
    · subst hq
      simpa using h3.2
    · exact h2 q hq

/-- Claim C9: when saving any photo of a completion batch fails, the
response is 400, the order collection is untouched, and no file written
during the request survives in the photos directory (everything left is a
pre-existing file). -/
theorem C9_photo_batch_atomicity (st : St) (r : CompleteReq) (o : Order)
    (hlog : r.loggedIn = true)
    (hfind : findOrder st.orders r.job_no = some o)
    (hfail : ∃ fs ∈ r.files, fs.filename ≠ [] ∧
      (secure_filename fs.filename = [] ∨ fs.saveOk = false)) :
    (complete_order st r).1.status = 400 ∧
      (complete_order st r).2.orders = st.orders ∧
      ((complete_order st r).2.photoDir.all
        (fun n => st.photoDir.contains n)) = true := by
  by_cases hmt : normalize_text (orEmpty r.mount_type) ∈ valid_mount_types
  · obtain ⟨saved, dir', msg, hloop⟩ :=
      @save_photos_loop_fails r.job_no r.now r.files [] st.photoDir hfail
    have hres : complete_order st r =
        (⟨400, msg⟩, { st with photoDir := cleanup_photos saved dir' }) := by
      simp only [complete_order, hlog, Bool.not_true, Bool.false_eq_true,
        if_false, hfind, if_neg (not_not_intro hmt), hloop]
    rw [hres]
    refine ⟨rfl, rfl, ?_⟩
    rw [List.all_eq_true]
    intro n hn
    apply List.elem_iff.2
    obtain ⟨hdir, hnot⟩ := mem_cleanup_photos hn
    obtain ⟨nw, h1, h2⟩ :=
      save_photos_loop_dir r.job_no r.now r.files [] st.photoDir
    rw [hloop] at h1 h2
    simp only at h1 h2
    rw [h2] at hdir
    rcases List.mem_append.1 hdir with hmem | hmem
    · exact hmem
    · exfalso
      obtain ⟨p, hp, hpn⟩ := List.mem_map.1 hmem
      have : p ∈ saved := by rw [h1]; simpa using hp
      exact hnot p this hpn.symm
  · have hres : complete_order st r =
        (⟨400, "Geçersiz montaj türü.".toList⟩, st) := by
      simp only [complete_order, hlog, Bool.not_true, Bool.false_eq_true,
        if_false, hfind, if_pos hmt]
    rw [hres]
    refine ⟨rfl, rfl, ?_⟩
    rw [List.all_eq_true]
    intro n hn
    exact List.elem_iff.2 hn

/-- Claim C10: a logged-in completion request on an existing order with
no non-empty-named upload leaves the state untouched and yields 400;
when the mount type passes the allow-list (the empty string does), the
message is the dedicated at-least-one-photo error. -/
theorem C10_completion_requires_photo :
    (∀ (st : St) (r : CompleteReq) (o : Order),
      r.loggedIn = true → findOrder st.orders r.job_no = some o →
      (∀ fs ∈ r.files, fs.filename = []) →
      (complete_order st r).1.status = 400 ∧ (complete_order st r).2 = st) ∧
    (∀ (st : St) (r : CompleteReq) (o : Order),
      r.loggedIn = true → findOrder st.orders r.job_no = some o →
      (∀ fs ∈ r.files, fs.filename = []) →
      normalize_text (orEmpty r.mount_type) ∈ valid_mount_types →
      complete_order st r =
        (⟨400, "Lütfen en az bir fotoğraf yükleyin.".toList⟩, st)) ∧
    ([] : Str) ∈ valid_mount_types := by
  have key : ∀ (st : St) (r : CompleteReq),
      r.loggedIn = true → (∀ o, findOrder st.orders r.job_no = some o →
      (∀ fs ∈ r.files, fs.filename = []) →
      normalize_text (orEmpty r.mount_type) ∈ valid_mount_types →
      complete_order st r =
        (⟨400, "Lütfen en az bir fotoğraf yükleyin.".toList⟩, st)) := by
    intro st r hlog o hfind hempty hmt
    have hloop :=
      save_photos_loop_skip r.job_no r.now r.files [] st.photoDir hempty
    simp only [complete_order, hlog, Bool.not_true, Bool.false_eq_true,
      if_false, hfind, if_neg (not_not_intro hmt), hloop,
      if_pos (rfl : ([] : List Photo) = []), if_true, eq_self_iff_true]
  refine ⟨?_, ?_, by decide⟩
  · intro st r o hlog hfind hempty
    by_cases hmt : normalize_text (orEmpty r.mount_type) ∈ valid_mount_types
    · rw [key st r hlog o hfind hempty hmt]
      exact ⟨rfl, rfl⟩
    · have hres : complete_order st r =
          (⟨400, "Geçersiz montaj türü.".toList⟩, st) := by
        simp only [complete_order, hlog, Bool.not_true, Bool.false_eq_true,
          if_false, hfind, if_pos hmt]
      rw [hres]
      exact ⟨rfl, rfl⟩
  · intro st r o hlog hfind hempty hmt
    exact key st r hlog o hfind hempty hmt

/-! Idempotency of `pyStrip`, needed to relate the double stripping in the
priority pipeline to a single trim of the raw input. -/

theorem dropWhile_dropWhile (p : Char → Bool) (l : List Char) :
    List.dropWhile p (List.dropWhile p l) = List.dropWhile p l := by
  induction l with
  | nil => rfl
  | cons a t ih =>
    by_cases h : p a = true
    · rw [List.dropWhile_cons, if_pos h, ih]
    · rw [List.dropWhile_cons, if_neg h, List.dropWhile_cons, if_neg h]

theorem head_dropWhile_false {l : List Char} {c : Char} {t : List Char}
    (h : l.dropWhile isSpace = c :: t) : isSpace c = false := by
  induction l with
  | nil => simp at h
  | cons a s ih =>
    rw [List.dropWhile_cons] at h
    by_cases ha : isSpace a = true
    · rw [if_pos ha] at h
      exact ih h
    · rw [if_neg ha] at h
      obtain ⟨h1, _⟩ := List.cons.injEq .. ▸ h
      rw [← h1]
      simpa using ha

theorem pyStrip_idem (l : List Char) : pyStrip (pyStrip l) = pyStrip l := by
  rcases hm : pyStrip l with _ | ⟨c, t⟩
  · rfl
  · rw [pyStrip] at hm
    have hmr : (l.dropWhile isSpace).reverse.dropWhile isSpace =
        (c :: t).reverse := by
      have := congrArg List.reverse hm
      rwa [List.reverse_reverse] at this
    have hii : List.dropWhile isSpace (c :: t).reverse = (c :: t).reverse := by
      rw [← hmr, dropWhile_dropWhile]
    have hX := congrArg List.reverse
      (List.takeWhile_append_dropWhile isSpace (l.dropWhile isSpace).reverse).symm
    rw [List.reverse_reverse, List.reverse_append, hmr,
      List.reverse_reverse] at hX
    have hc : isSpace c = false :=
      head_dropWhile_false (l := l)
        (t := t ++ (List.takeWhile isSpace (l.dropWhile isSpace).reverse).reverse)
        (hX.trans (List.cons_append c t _))
    rw [pyStrip, dropWhile_cons_of_not_space hc, hii, List.reverse_reverse]

theorem normalize_text_pyStrip (l : List Char) :
    normalize_text (pyStrip l) = normalize_text l := by
  rw [normalize_text, normalize_text, pyStrip_idem]

/-- The first required field is `priority`: a blank priority makes the
missing-fields list non-empty, headed by `"priority"`. -/
theorem missingFields_of_blank_priority {data : CreatePayload}
    (h : pyStrip (orEmpty data.priority) = []) :
    missingFields data ≠ [] := by
  apply List.ne_nil_of_mem (a := "priority".toList)
  apply List.mem_filterMap.2
  exact ⟨("priority".toList, data.priority),
    by simp [required_field_names, requiredValues], by simp [h]⟩

/-- Claim C7 fails as stated for creation: a payload with the priority
key missing (all other required fields present) is rejected with a
validation error, so no order with the default priority is stored. -/
theorem C7_counterexample :
    build_order_fields
      ⟨none, some "ali".toList, some "tv".toList, some "5".toList,
        some "kurulum".toList, none, some "ev".toList, none⟩
      "TE-0001".toList 0 =
      .error "Eksik alanlar: priority".toList := by
  rfl

/-- Claim C7 (amended): whenever an order document is actually built, an
in-allow-list normalized priority is stored as given (trimmed and
upper-cased) and any other is replaced by DÜŞÜK; a creation payload whose
priority is missing or blank is rejected instead; an update payload with
the priority key present behaves like creation, empty value included. -/
theorem C7_priority_allowlist :
    (∀ (data : CreatePayload) (jn : Str) (now : Nat) (doc : Order),
      build_order_fields data jn now = .ok doc →
      (normalize_text (orEmpty data.priority) ∈ valid_priorities →
        doc.priority = normalize_text (orEmpty data.priority)) ∧
      (normalize_text (orEmpty data.priority) ∉ valid_priorities →
        doc.priority = "DÜŞÜK".toList)) ∧
    (∀ (data : CreatePayload) (jn : Str) (now : Nat),
      pyStrip (orEmpty data.priority) = [] →
      build_order_fields data jn now =
        .error ("Eksik alanlar: ".toList ++ joinComma (missingFields data))) ∧
    (∀ (p : UpdatePayload) (v : Option Str) (o : Order),
      p.priority = some v →
      (normalize_text (orEmpty v) ∈ valid_priorities →
        (applyUpdateDoc (build_update_doc p) o).priority =
          normalize_text (orEmpty v)) ∧
      (normalize_text (orEmpty v) ∉ valid_priorities →
        (applyUpdateDoc (build_update_doc p) o).priority =
          "DÜŞÜK".toList)) := by
  refine ⟨?_, ?_, ?_⟩
  · intro data jn now doc hok
    simp only [build_order_fields] at hok
    by_cases hm : missingFields data ≠ []
    · rw [if_pos hm] at hok
      exact absurd hok (by simp)
    · rw [if_neg hm] at hok
      have hpri : pyStrip (orEmpty data.priority) ≠ [] := by
        intro hblank
        exact hm (by simpa using missingFields_of_blank_priority hblank)
      rcases hv : data.priority with _ | v
      · exact absurd (by simp [hv, orEmpty, pyStrip]) hpri
      · have hvne : v ≠ [] := by
          intro hveq
          exact hpri (by simp [hv, hveq, orEmpty, pyStrip])
        have heq := Except.ok.inj hok
        have hdoc : doc.priority =
            (if normalize_text (pyStrip v) ∈ valid_priorities then
              normalize_text (pyStrip v) else "DÜŞÜK".toList) := by
          rw [← heq]
          simp only [hv]
          rw [if_neg hvne]
        have hnn : normalize_text (pyStrip v) = normalize_text (orEmpty (some v)) := by
          rw [normalize_text_pyStrip]
          rfl
        constructor
        · intro hin
          rw [hdoc, hnn, if_pos hin]
        · intro hout
          rw [hdoc, if_neg (by rw [hnn]; exact hout)]
  · intro data jn now hblank
    rw [build_order_fields, if_pos (missingFields_of_blank_priority hblank)]
  · intro p v o hp
    have hdoc : (applyUpdateDoc (build_update_doc p) o).priority =
        (if normalize_text (stripValue v) ∈ valid_priorities then
          normalize_text (stripValue v) else "DÜŞÜK".toList) := by
      simp [applyUpdateDoc, build_update_doc, hp]
    have hnn : normalize_text (stripValue v) = normalize_text (orEmpty v) := by
      rw [stripValue, normalize_text_pyStrip]
    constructor
    · intro hin
      rw [hdoc, hnn, if_pos hin]
    · intro hout
      rw [hdoc, if_neg (by rw [hnn]; exact hout)]

/-- A creation payload whose note has surrounding blanks and lowercase
letters, used to exhibit the missing upper-casing of `note`. -/
def c4payload : CreatePayload :=
  ⟨some "ORTA".toList, some "ali".toList, some "tv".toList, some "5".toList,
    some "kurulum".toList, none, some "ev".toList, some " abc ".toList⟩

/-- Claim C4 fails as stated for `note`: the stored note is only trimmed
("abc"), while the trimmed-and-upper-cased input would be "ABC". -/
theorem C4_counterexample :
    (build_order_fields c4payload "TE-0001".toList 0).toOption.map
        Order.note = some "abc".toList ∧
      normalize_text " abc ".toList = "ABC".toList ∧
      ("abc".toList : Str) ≠ "ABC".toList := by
  decide

/-- Claim C4 (amended): in every built order document the customer name,
phone, model, service and address are stored trimmed and upper-cased,
while the note is stored only trimmed, not upper-cased. -/
theorem C4_text_normalization (data : CreatePayload) (jn : Str) (now : Nat)
    (doc : Order) (hok : build_order_fields data jn now = .ok doc) :
    doc.name = normalize_text (orEmpty data.name) ∧
      doc.phone = normalize_text (orEmpty data.phone) ∧
      doc.model = normalize_text (orEmpty data.model) ∧
      doc.service = normalize_text (orEmpty data.service) ∧
      doc.address = normalize_text (orEmpty data.address) ∧
      doc.note = pyStrip (orEmpty data.note) := by
  simp only [build_order_fields] at hok
  by_cases hm : missingFields data ≠ []
  · rw [if_pos hm] at hok
    exact absurd hok (by simp)
  · rw [if_neg hm] at hok
    have heq := Except.ok.inj hok
    rw [← heq]
    exact ⟨rfl, rfl, rfl, rfl, rfl, rfl⟩

/-- Witness for C4 at a concrete payload that builds successfully. -/
theorem C4_text_normalization_witness :
    ({ job_no := "TE-0001".toList, priority := "ORTA".toList,
       name := "ALI".toList, model := "TV".toList, phone := "5".toList,
       service := "KURULUM".toList, rnu := [], address := "EV".toList,
       note := "abc".toList, created_at := 0, invoice := none, photos := [],
       montaj_completed := false, montaj_completion := none } : Order).name =
        normalize_text (orEmpty c4payload.name) ∧
      ({ job_no := "TE-0001".toList, priority := "ORTA".toList,
         name := "ALI".toList, model := "TV".toList, phone := "5".toList,
         service := "KURULUM".toList, rnu := [], address := "EV".toList,
         note := "abc".toList, created_at := 0, invoice := none, photos := [],
         montaj_completed := false, montaj_completion := none } : Order).phone =
        normalize_text (orEmpty c4payload.phone) ∧
      ({ job_no := "TE-0001".toList, priority := "ORTA".toList,
         name := "ALI".toList, model := "TV".toList, phone := "5".toList,
         service := "KURULUM".toList, rnu := [], address := "EV".toList,
         note := "abc".toList, created_at := 0, invoice := none, photos := [],
         montaj_completed := false, montaj_completion := none } : Order).model =
        normalize_text (orEmpty c4payload.model) ∧
      ({ job_no := "TE-0001".toList, priority := "ORTA".toList,
         name := "ALI".toList, model := "TV".toList, phone := "5".toList,
         service := "KURULUM".toList, rnu := [], address := "EV".toList,
         note := "abc".toList, created_at := 0, invoice := none, photos := [],
         montaj_completed := false,
         montaj_completion := none } : Order).service =
        normalize_text (orEmpty c4payload.service) ∧
      ({ job_no := "TE-0001".toList, priority := "ORTA".toList,
         name := "ALI".toList, model := "TV".toList, phone := "5".toList,
         service := "KURULUM".toList, rnu := [], address := "EV".toList,
         note := "abc".toList, created_at := 0, invoice := none, photos := [],
         montaj_completed := false,
         montaj_completion := none } : Order).address =
        normalize_text (orEmpty c4payload.address) ∧
      ({ job_no := "TE-0001".toList, priority := "ORTA".toList,
         name := "ALI".toList, model := "TV".toList, phone := "5".toList,
         service := "KURULUM".toList, rnu := [], address := "EV".toList,
         note := "abc".toList, created_at := 0, invoice := none, photos := [],
         montaj_completed := false, montaj_completion := none } : Order).note =
        pyStrip (orEmpty c4payload.note) :=
  C4_text_normalization c4payload "TE-0001".toList 0 _ (by rfl)

/-! Concrete sample data shared by counterexamples and witnesses. -/

/-- A level-1 admin technician (so `enforce_initial_setup` lets requests
through). -/
def adminTech : Technician :=
  ⟨"ADMIN".toList, "ADMIN".toList, "PW".toList, 1, 0⟩

/-- An already-completed sample order with one photo on disk. -/
def wOrder : Order :=
  { job_no := "TE-1234".toList, priority := "DÜŞÜK".toList,
    name := "ALI".toList, model := "TV".toList, phone := "5551112233".toList,
    service := "TV KURULUM".toList, rnu := [], address := "EV".toList,
    note := "not".toList, created_at := 0, invoice := none,
    photos := [⟨"old.jpg".toList, "TE-1234-S0-old.jpg".toList, 0⟩],
    montaj_completed := true,
    montaj_completion := some ⟨"DUVAR".toList, [], 1, 0⟩ }

/-- Sample store state: one order, one admin, the order's photo on disk. -/
def wSt : St := ⟨[wOrder], [adminTech], ["TE-1234-S0-old.jpg".toList], []⟩

/-- A single random draw 0-0-0-0 (job number TE-0000). -/
def oneDraw : List Draw :=
  [((0 : Fin 10), (0 : Fin 10), (0 : Fin 10), (0 : Fin 10))]

/-- A valid dealer form with an invoice file that saves fine. -/
def c3Form : BayiForm :=
  ⟨some "ali".toList, some "5".toList, some "tv".toList, none,
    some "ev".toList, none, some ⟨"f.pdf".toList, true, "S1".toList⟩⟩

/-- Claim C3 fails as stated: the dealer order-creation endpoint
`/bayi/orders` consults no session at all (its request carries no login
information), yet behind the setup gate it inserts an order and answers
200 on a state holding no sessionless restriction. -/
theorem C3_counterexample :
    (app_bayi_create_order ⟨[], [adminTech], [], []⟩ ⟨c3Form, 3⟩ oneDraw).map
        (fun p => (p.1.status, p.2.orders.length)) = some (200, 1) := by
  decide

/-- Claim C3 (amended): every session-gated endpoint — listing, JSON
creation, invoice upload, completion, update, delete, photo download,
technician creation — answers 401 and leaves the state unchanged on a
request without a logged-in session, and the JSON creation endpoint
behind the setup gate never inserts without a session; the dealer
endpoint `/bayi/orders` is a second public form besides the token-based
invoice upload. -/
theorem C3_login_gate (st : St) (r1 : ListReq) (r2 : CreateReq)
    (r3 : UploadInvoiceReq) (r4 : CompleteReq) (r5 : UpdateReq)
    (r6 : DeleteReq) (r7 : DownloadReq) (r8 : TechReq) (draws : List Draw)
    (h1 : r1.loggedIn = false) (h2 : r2.loggedIn = false)
    (h3 : r3.loggedIn = false) (h4 : r4.loggedIn = false)
    (h5 : r5.loggedIn = false) (h6 : r6.loggedIn = false)
    (h7 : r7.loggedIn = false) (h8 : r8.loggedIn = false) :
    list_orders st r1 = (unauthorized_json, st) ∧
      create_order st r2 draws = some (unauthorized_json, st) ∧
      upload_invoice st r3 = (unauthorized_json, st) ∧
      complete_order st r4 = (unauthorized_json, st) ∧
      update_order st r5 = (unauthorized_json, st) ∧
      delete_order st r6 = (unauthorized_json, st) ∧
      download_photos st r7 = (unauthorized_json, st) ∧
      create_technician st r8 = (unauthorized_json, st) ∧
      app_create_order st r2 draws =
        some ((if has_admin_user st then unauthorized_json else ⟨302, []⟩),
          st) := by
  refine ⟨by simp [list_orders, h1], by simp [create_order, h2],
    by simp [upload_invoice, h3], by simp [complete_order, h4],
    by simp [update_order, h5], by simp [delete_order, h6],
    by simp [download_photos, h7], by simp [create_technician, h8], ?_⟩
  by_cases ha : has_admin_user st
  · rw [app_create_order, if_pos ha, if_pos ha]
    simp [create_order, h2]
  · rw [app_create_order, if_neg ha, if_neg ha]

/-- Any blank required field makes the missing-fields list non-empty. -/
theorem missingFields_ne_nil_of_blank {data : CreatePayload}
    (h : pyStrip (orEmpty data.priority) = [] ∨
      pyStrip (orEmpty data.name) = [] ∨
      pyStrip (orEmpty data.model) = [] ∨
      pyStrip (orEmpty data.phone) = [] ∨
      pyStrip (orEmpty data.service) = [] ∨
      pyStrip (orEmpty data.address) = []) :
    missingFields data ≠ [] := by
  rcases h with h | h | h | h | h | h
  · exact missingFields_of_blank_priority h
  · exact List.ne_nil_of_mem (a := "name".toList) (List.mem_filterMap.2
      ⟨("name".toList, data.name),
        by simp [required_field_names, requiredValues], by simp [h]⟩)
  · exact List.ne_nil_of_mem (a := "model".toList) (List.mem_filterMap.2
      ⟨("model".toList, data.model),
        by simp [required_field_names, requiredValues], by simp [h]⟩)
  · exact List.ne_nil_of_mem (a := "phone".toList) (List.mem_filterMap.2
      ⟨("phone".toList, data.phone),
        by simp [required_field_names, requiredValues], by simp [h]⟩)
  · exact List.ne_nil_of_mem (a := "service".toList) (List.mem_filterMap.2
      ⟨("service".toList, data.service),
        by simp [required_field_names, requiredValues], by simp [h]⟩)
  · exact List.ne_nil_of_mem (a := "address".toList) (List.mem_filterMap.2
      ⟨("address".toList, data.address),
        by simp [required_field_names, requiredValues], by simp [h]⟩)

/-- A dealer form with a blank one of name/phone/model/address is
rejected by `_create_order_from_bayi`. -/
theorem create_order_from_bayi_error {form : BayiForm}
    (h : normalize_text (orEmpty form.name) = [] ∨
      normalize_text (orEmpty form.phone) = [] ∨
      normalize_text (orEmpty form.model) = [] ∨
      normalize_text (orEmpty form.address) = []) :
    ∃ msg, create_order_from_bayi form = .error msg := by
  simp only [create_order_from_bayi]
  by_cases h1 : normalize_text (orEmpty form.name) = []
  · exact ⟨_, by rw [if_pos h1]⟩
  by_cases h2 : normalize_text (orEmpty form.phone) = []
  · exact ⟨_, by rw [if_neg h1, if_pos h2]⟩
  by_cases h3 : normalize_text (orEmpty form.model) = []
  · exact ⟨_, by rw [if_neg h1, if_neg h2, if_pos h3]⟩
  by_cases h4 : normalize_text (orEmpty form.address) = []
  · exact ⟨_, by rw [if_neg h1, if_neg h2, if_neg h3, if_pos h4]⟩
  rcases h with h | h | h | h
  · exact absurd h h1
  · exact absurd h h2
  · exact absurd h h3
  · exact absurd h h4

/-- Claim C8 fails as stated at the dealer endpoint: a creation request
with the required field `service` blank is not rejected — the service
defaults to TV KURULUM and the order is inserted with status 200. -/
theorem C8_counterexample :
    (app_bayi_create_order ⟨[], [adminTech], [], []⟩
        ⟨⟨some "ali".toList, some "5".toList, some "tv".toList,
          some "  ".toList, some "ev".toList, none,
          some ⟨"f.pdf".toList, true, "S1".toList⟩⟩, 3⟩ oneDraw).map
        (fun p => (p.1.status, p.2.orders.map Order.service)) =
      some (200, ["TV KURULUM".toList]) := by
  decide

/-- Claim C8 (amended): logged-in order-scoped requests whose job number
matches no order get 404 with the state unchanged (invoice upload,
completion, update, delete, photo download); a JSON creation request with
any required field missing or blank inserts nothing and gets 400 with the
missing-fields message; the dealer form rejects blank name, phone, model
or address the same way, but defaults a blank service (and fixes the
priority) instead of rejecting it. -/
theorem C8_validation_and_lookup :
    (∀ (st : St) (r : UploadInvoiceReq), r.loggedIn = true →
      findOrder st.orders r.job_no = none →
      upload_invoice st r = (⟨404, "İşemri bulunamadı.".toList⟩, st)) ∧
    (∀ (st : St) (r : CompleteReq), r.loggedIn = true →
      findOrder st.orders r.job_no = none →
      complete_order st r = (⟨404, "İşemri bulunamadı.".toList⟩, st)) ∧
    (∀ (st : St) (r : UpdateReq), r.loggedIn = true →
      findOrder st.orders r.job_no = none →
      update_order st r = (⟨404, "İşemri bulunamadı.".toList⟩, st)) ∧
    (∀ (st : St) (r : DeleteReq), r.loggedIn = true →
      findOrder st.orders r.job_no = none →
      delete_order st r = (⟨404, "İşemri bulunamadı.".toList⟩, st)) ∧
    (∀ (st : St) (r : DownloadReq), r.loggedIn = true →
      findOrder st.orders r.job_no = none →
      download_photos st r = (⟨404, "İşemri bulunamadı.".toList⟩, st)) ∧
    (∀ (st : St) (r : CreateReq) (draws : List Draw), r.loggedIn = true →
      (pyStrip (orEmpty r.payload.priority) = [] ∨
        pyStrip (orEmpty r.payload.name) = [] ∨
        pyStrip (orEmpty r.payload.model) = [] ∨
        pyStrip (orEmpty r.payload.phone) = [] ∨
        pyStrip (orEmpty r.payload.service) = [] ∨
        pyStrip (orEmpty r.payload.address) = []) →
      create_order st r draws =
        some (⟨400, "Eksik alanlar: ".toList ++
          joinComma (missingFields r.payload)⟩, st)) ∧
    (∀ (st : St) (r : BayiReq) (draws : List Draw),
      (normalize_text (orEmpty r.form.name) = [] ∨
        normalize_text (orEmpty r.form.phone) = [] ∨
        normalize_text (orEmpty r.form.model) = [] ∨
        normalize_text (orEmpty r.form.address) = []) →
      (bayi_create_order st r draws).map (fun p => (p.1.status, p.2)) =
        some (400, st)) := by
  refine ⟨?_, ?_, ?_, ?_, ?_, ?_, ?_⟩
  · intro st r hl hf
    simp [upload_invoice, hl, hf]
  · intro st r hl hf
    simp [complete_order, hl, hf]
  · intro st r hl hf
    simp [update_order, hl, hf]
  · intro st r hl hf
    simp [delete_order, hl, hf]
  · intro st r hl hf
    simp [download_photos, hl, hf]
  · intro st r draws hl hblank
    have hm := missingFields_ne_nil_of_blank hblank
    simp only [create_order, hl, Bool.not_true, Bool.false_eq_true, if_false,
      create_order_from_payload, build_order_document, build_order_fields,
      if_pos hm]
  · intro st r draws hblank
    obtain ⟨msg, herr⟩ := create_order_from_bayi_error hblank
    simp [bayi_create_order, herr]

/-! Concrete requests used by the witnesses. -/

/-- An empty creation payload. -/
def emptyPayload : CreatePayload := ⟨none, none, none, none, none, none, none, none⟩

/-- An empty update payload. -/
def emptyUpdatePayload : UpdatePayload := ⟨none, none, none, none, none, none, none⟩

/-- A sessionless JSON creation request. -/
def noAuthCreateReq : CreateReq := ⟨false, emptyPayload, 0⟩

/-- Witness for C3 on the sample state. -/
theorem C3_login_gate_witness :
    list_orders wSt ⟨false⟩ = (unauthorized_json, wSt) ∧
      create_order wSt noAuthCreateReq oneDraw = some (unauthorized_json, wSt) ∧
      upload_invoice wSt ⟨false, "TE-1234".toList, none, 0⟩ =
        (unauthorized_json, wSt) ∧
      complete_order wSt ⟨false, "TE-1234".toList, none, none, [], 0⟩ =
        (unauthorized_json, wSt) ∧
      update_order wSt ⟨false, "TE-1234".toList, emptyUpdatePayload⟩ =
        (unauthorized_json, wSt) ∧
      delete_order wSt ⟨false, "TE-1234".toList⟩ = (unauthorized_json, wSt) ∧
      download_photos wSt ⟨false, "TE-1234".toList⟩ =
        (unauthorized_json, wSt) ∧
      create_technician wSt ⟨false, ⟨none, none, none, none⟩, 0⟩ =
        (unauthorized_json, wSt) ∧
      app_create_order wSt noAuthCreateReq oneDraw =
        some ((if has_admin_user wSt then unauthorized_json else ⟨302, []⟩),
          wSt) :=
  C3_login_gate wSt ⟨false⟩ noAuthCreateReq ⟨false, "TE-1234".toList, none, 0⟩
    ⟨false, "TE-1234".toList, none, none, [], 0⟩
    ⟨false, "TE-1234".toList, emptyUpdatePayload⟩ ⟨false, "TE-1234".toList⟩
    ⟨false, "TE-1234".toList⟩ ⟨false, ⟨none, none, none, none⟩, 0⟩ oneDraw
    rfl rfl rfl rfl rfl rfl rfl rfl

/-- The photo uploaded in the C5 witness. -/
def wFile : FileStorage := ⟨"a.jpg".toList, true, "S1".toList⟩

/-- The completion request of the C5 witness, on the already-completed
sample order (demonstrating that re-completion is permitted). -/
def wCompleteReq : CompleteReq :=
  ⟨true, "TE-1234".toList, some "SEHPA".toList, some " n ".toList, [wFile], 5⟩

/-- The photo entry produced by saving `wFile`. -/
def wPhoto : Photo := ⟨"a.jpg".toList, "TE-1234-S1-a.jpg".toList, 5⟩

/-- Witness for C5 on the sample state. -/
theorem C5_complete_order_witness :
    (complete_order wSt wCompleteReq).1 = ⟨200, []⟩ ∧
      (findOrder (complete_order wSt wCompleteReq).2.orders
          wCompleteReq.job_no).map Order.photos =
        some (wOrder.photos ++ [wPhoto]) ∧
      (findOrder (complete_order wSt wCompleteReq).2.orders
          wCompleteReq.job_no).map Order.montaj_completed = some true ∧
      (findOrder (complete_order wSt wCompleteReq).2.orders
          wCompleteReq.job_no).map Order.montaj_completion =
        some (some ⟨normalize_text (orEmpty wCompleteReq.mount_type),
          pyStrip (orEmpty wCompleteReq.note),
          (wOrder.photos ++ [wPhoto]).length, 5⟩) :=
  C5_complete_order wSt wCompleteReq wOrder [wPhoto]
    ["TE-1234-S0-old.jpg".toList, "TE-1234-S1-a.jpg".toList]
    rfl (by decide) (by decide) (by decide) (by decide)

/-- The update request of the C6 witness: rewrites priority and name. -/
def wUpdateReq : UpdateReq :=
  ⟨true, "TE-1234".toList,
    ⟨some (some "ORTA".toList), some (some " veli ".toList), none, none,
      none, none, none⟩⟩

/-- Witness for C6 on the sample state. -/
theorem C6_update_order_frame_witness :
    (update_order wSt wUpdateReq).1 = ⟨200, []⟩ ∧
      (findOrder (update_order wSt wUpdateReq).2.orders
          wUpdateReq.job_no).map Order.job_no = some wOrder.job_no ∧
      (findOrder (update_order wSt wUpdateReq).2.orders
          wUpdateReq.job_no).map Order.note = some wOrder.note ∧
      (findOrder (update_order wSt wUpdateReq).2.orders
          wUpdateReq.job_no).map Order.created_at = some wOrder.created_at ∧
      (findOrder (update_order wSt wUpdateReq).2.orders
          wUpdateReq.job_no).map Order.invoice = some wOrder.invoice ∧
      (findOrder (update_order wSt wUpdateReq).2.orders
          wUpdateReq.job_no).map Order.photos = some wOrder.photos ∧
      (findOrder (update_order wSt wUpdateReq).2.orders
          wUpdateReq.job_no).map Order.montaj_completed =
        some wOrder.montaj_completed ∧
      (findOrder (update_order wSt wUpdateReq).2.orders
          wUpdateReq.job_no).map Order.montaj_completion =
        some wOrder.montaj_completion ∧
      ((update_order wSt wUpdateReq).2.orders.all (fun p =>
        wSt.orders.contains p ||
          p == applyUpdateDoc (build_update_doc wUpdateReq.payload) wOrder)) =
        true :=
  C6_update_order_frame wSt wUpdateReq wOrder rfl (by decide) (by decide)

/-- The document built from `c4payload` with job number TE-0001. -/
def c4doc : Order :=
  { job_no := "TE-0001".toList, priority := "ORTA".toList,
    name := "ALI".toList, model := "TV".toList, phone := "5".toList,
    service := "KURULUM".toList, rnu := [], address := "EV".toList,
    note := "abc".toList, created_at := 0, invoice := none, photos := [],
    montaj_completed := false, montaj_completion := none }

/-- A creation payload with a missing priority key and every other
required field present. -/
def c7blankPayload : CreatePayload :=
  ⟨none, some "ali".toList, some "tv".toList, some "5".toList,
    some "kurulum".toList, none, some "ev".toList, none⟩

/-- An update payload with an out-of-allow-list priority. -/
def c7badUpdate : UpdatePayload :=
  ⟨some (some "x".toList), none, none, none, none, none, none⟩

/-- Witness for C7: an in-allow-list priority is stored normalized, a
blank one is rejected at creation, and the update path stores the
normalized value or the fallback. -/
theorem C7_priority_allowlist_witness :
    c4doc.priority = normalize_text (orEmpty c4payload.priority) ∧
      build_order_fields c7blankPayload "TE-0002".toList 0 =
        .error ("Eksik alanlar: ".toList ++
          joinComma (missingFields c7blankPayload)) ∧
      (applyUpdateDoc (build_update_doc wUpdateReq.payload) wOrder).priority =
        normalize_text (orEmpty (some "ORTA".toList)) ∧
      (applyUpdateDoc (build_update_doc c7badUpdate) wOrder).priority =
        "DÜŞÜK".toList :=
  ⟨(C7_priority_allowlist.1 c4payload "TE-0001".toList 0 c4doc
      (by rfl)).1 (by decide),
    C7_priority_allowlist.2.1 c7blankPayload "TE-0002".toList 0 (by decide),
    (C7_priority_allowlist.2.2 wUpdateReq.payload (some "ORTA".toList) wOrder
      rfl).1 (by decide),
    (C7_priority_allowlist.2.2 c7badUpdate (some "x".toList) wOrder
      rfl).2 (by decide)⟩

/-- A logged-in creation request whose required `name` field is blank. -/
def c8CreateReq : CreateReq :=
  ⟨true, ⟨some "ORTA".toList, some "  ".toList, some "tv".toList,
    some "5".toList, some "kurulum".toList, none, some "ev".toList, none⟩, 0⟩

/-- A dealer request whose `name` form field is absent. -/
def c8BayiReq : BayiReq :=
  ⟨⟨none, some "5".toList, some "tv".toList, some "k".toList,
    some "ev".toList, none, none⟩, 0⟩

/-- Witness for C8: 404 on five order-scoped endpoints for an unknown job
number, 400 with the missing-fields message on blank JSON creation, 400
without insertion on a blank dealer name. -/
theorem C8_validation_and_lookup_witness :
    upload_invoice wSt ⟨true, "TE-9999".toList, none, 0⟩ =
        (⟨404, "İşemri bulunamadı.".toList⟩, wSt) ∧
      complete_order wSt ⟨true, "TE-9999".toList, none, none, [], 0⟩ =
        (⟨404, "İşemri bulunamadı.".toList⟩, wSt) ∧
      update_order wSt ⟨true, "TE-9999".toList, emptyUpdatePayload⟩ =
        (⟨404, "İşemri bulunamadı.".toList⟩, wSt) ∧
      delete_order wSt ⟨true, "TE-9999".toList⟩ =
        (⟨404, "İşemri bulunamadı.".toList⟩, wSt) ∧
      download_photos wSt ⟨true, "TE-9999".toList⟩ =
        (⟨404, "İşemri bulunamadı.".toList⟩, wSt) ∧
      create_order wSt c8CreateReq oneDraw =
        some (⟨400, "Eksik alanlar: ".toList ++
          joinComma (missingFields c8CreateReq.payload)⟩, wSt) ∧
      (bayi_create_order wSt c8BayiReq oneDraw).map
          (fun p => (p.1.status, p.2)) = some (400, wSt) :=
  ⟨C8_validation_and_lookup.1 wSt ⟨true, "TE-9999".toList, none, 0⟩
      rfl (by decide),
    C8_validation_and_lookup.2.1 wSt ⟨true, "TE-9999".toList, none, none, [], 0⟩
      rfl (by decide),
    C8_validation_and_lookup.2.2.1 wSt ⟨true, "TE-9999".toList, emptyUpdatePayload⟩
      rfl (by decide),
    C8_validation_and_lookup.2.2.2.1 wSt ⟨true, "TE-9999".toList⟩
      rfl (by decide),
    C8_validation_and_lookup.2.2.2.2.1 wSt ⟨true, "TE-9999".toList⟩
      rfl (by decide),
    C8_validation_and_lookup.2.2.2.2.2.1 wSt c8CreateReq oneDraw
      rfl (by decide),
    C8_validation_and_lookup.2.2.2.2.2.2 wSt c8BayiReq oneDraw (by decide)⟩

/-- A completion request whose second photo has an invalid filename, so
its save fails after the first photo was written. -/
def c9Req : CompleteReq :=
  ⟨true, "TE-1234".toList, some "DUVAR".toList, none,
    [wFile, ⟨"..".toList, true, "S2".toList⟩], 7⟩

/-- Witness for C9 on the sample state. -/
theorem C9_photo_batch_atomicity_witness :
    (complete_order wSt c9Req).1.status = 400 ∧
      (complete_order wSt c9Req).2.orders = wSt.orders ∧
      ((complete_order wSt c9Req).2.photoDir.all
        (fun n => wSt.photoDir.contains n)) = true :=
  C9_photo_batch_atomicity wSt c9Req wOrder rfl (by decide) (by decide)

/-- A completion request carrying only an empty-named upload and no mount
type. -/
def c10Req : CompleteReq :=
  ⟨true, "TE-1234".toList, none, none, [⟨[], true, "S3".toList⟩], 9⟩

/-- Witness for C10 on the sample state: empty mount type passes the
allow-list and the request fails only for lack of photos. -/
theorem C10_completion_requires_photo_witness :
    ((complete_order wSt c10Req).1.status = 400 ∧
      (complete_order wSt c10Req).2 = wSt) ∧
      complete_order wSt c10Req =
        (⟨400, "Lütfen en az bir fotoğraf yükleyin.".toList⟩, wSt) ∧
      ([] : Str) ∈ valid_mount_types :=
  ⟨C10_completion_requires_photo.1 wSt c10Req wOrder rfl (by decide)
      (by decide),
    C10_completion_requires_photo.2.1 wSt c10Req wOrder rfl (by decide)
      (by decide) (by decide),
    C10_completion_requires_photo.2.2⟩

end SisMontaj
